import Mathlib

/-!
Verification of the `python-alp` repository: a shallow embedding of the
modules `alp/appcom/utils.py`, `alp/backend/keras_backend.py`,
`alp/dbbackend/__init__.py` and `alp/cli.py`, together with theorems
settling the behavioural claims about them.

External libraries (Keras, Celery, MongoDB drivers, the filesystem) are
abstracted as parameters: a call into an external library becomes a field
of a dependency structure, universally quantified in the theorems.
Python exceptions become an explicit error type, and fallible code
returns `Except`.
-/

set_option autoImplicit false

namespace Alp

/-- Python exceptions that the embedded code can raise.  Each constructor
carries the message (or the offending name) of the Python exception. -/
inductive PyErr where
  | notImplemented : String → PyErr
  | nameError : String → PyErr
  | unboundLocal : String → PyErr
  | keyError : String → PyErr
  | indexError : String → PyErr
  | valueError : String → PyErr
  | typeError : String → PyErr
  | assertionError : String → PyErr
  | ioError : String → PyErr
  deriving DecidableEq, Repr

/-- Values stored in the JSON-like documents the repository manipulates:
strings, integers, lists of numbers (metric histories) and an abstract
datetime token. -/
inductive Value where
  | str : String → Value
  | int : Int → Value
  | list : List Int → Value
  | dt : Nat → Value
  deriving DecidableEq, Repr

/-- A document (Python dict with insertion order): an association list. -/
abbrev Doc := List (String × Value)

/-- First-match lookup in a document, like Python `d[k]` returning
`none` when the key is missing. -/
def lookupD (d : Doc) (k : String) : Option Value :=
  match d with
  | [] => none
  | (k', v) :: rest => if k' = k then some v else lookupD rest k

/-- Python `d[k] = v`: overwrite the first occurrence of `k` in place,
or append the binding at the end when `k` is fresh (insertion order). -/
def docSet (d : Doc) (k : String) (v : Value) : Doc :=
  match d with
  | [] => [(k, v)]
  | (k', v') :: rest =>
      if k' = k then (k', v) :: rest else (k', v') :: docSet rest k v

/-- Apply a sequence of `d[k] = v` assignments (a Mongo `$set` document). -/
def docSets (d : Doc) (kvs : Doc) : Doc :=
  kvs.foldl (fun acc kv => docSet acc kv.1 kv.2) d

/-!
## `alp/appcom/utils.py`
-/

/-- Embedding of `sliced(data, nb_train, nb_test, offset)`
(`alp/appcom/utils.py`, lines 12–37).  `data` is a dict mapping names to
arrays (modelled as lists of numbers, in insertion order).  With an
empty dict the loop over `data.keys()` never binds `first` and the
subsequent use of `first` raises a `NameError`; otherwise the assertion
compares the length of the first array with `nb_train + nb_test + offset`
and on success the three indexes are returned. -/
def sliced (data : List (String × List Int)) (nb_train nb_test offset : Int) :
    Except PyErr (Int × Int × Int) :=
  match data with
  | [] => .error (.nameError "first")
  | (_, arr) :: _ =>
      let lenFirst : Int := (arr.length : Int)
      if lenFirst > nb_train + nb_test + offset then
        let beg := offset - lenFirst
        let endt := beg + nb_train
        let endv := endt + nb_test
        .ok (beg, endt, endv)
      else
        .error (.assertionError
          ("nb or nb + offset too large: len(data):" ++ toString lenFirst ++
           ", len(selection): " ++ toString (nb_train + nb_test + offset)))

/-- The module a backend resolves to, identified by its module name
(the Python module object is abstracted to its `__name__`). -/
structure Backend where
  name : String
  deriving DecidableEq, Repr

/-- `keras_backend.get_backend()` (`alp/backend/keras_backend.py`,
lines 41–43): imports and returns the `keras` module. -/
def kerasGetBackend : Backend := ⟨"keras"⟩

/-- Embedding of `switch_backend(backend_name)`
(`alp/appcom/utils.py`, lines 79–91).  Both the `'keras'` and the
`'sklearn'` branch execute `from ..backend.keras_backend import
get_backend`; any other name leaves the local `get_backend` unbound, so
the final `return get_backend()` raises `UnboundLocalError`. -/
def switch_backend (backend_name : String) : Except PyErr Backend :=
  if backend_name = "keras" then
    .ok kerasGetBackend
  else if backend_name = "sklearn" then
    .ok kerasGetBackend
  else
    .error (.unboundLocal "get_backend")

/-!
## `alp/cli.py`
-/

/-- Evaluation of a Python identifier that has no binding in the module:
`NameError`.  The module namespace of `alp/cli.py` binds only `sys`,
`click`, `os`, `json`, `subprocess`, `_alp_dir`, `parse_cont`,
`build_commands`, `action_config`, `main` and `service`; the names
`containers`, `models_gen_db`, `base_columes`, `v` and `p` used inside
`parse_cont` and `build_commands` are bound nowhere. -/
def undefinedName {α : Type} (s : String) : Except PyErr α :=
  .error (.nameError s)

/-- A container description from the JSON config file
(`containers.json`), as the tests build them. -/
structure ContSpec where
  name : String
  mode : String
  container_name : String
  volumes : Option (List String)
  ports : Option (List String)
  options : Option (List String)

/-- Embedding of `parse_cont(container, action, volumes, links)`
(`alp/cli.py`, lines 25–54).  Its first statement evaluates the
identifier `containers`, which is not bound anywhere in the module, so
every call raises `NameError('containers')`.  The remainder of the body
(unreachable) is embedded for structure; the uses of the equally
undefined `v` and `p` on lines 38 and 44 are kept. -/
def parse_cont (container : ContSpec) (action : String)
    (volumes links : Option (List String)) : Except PyErr (List String) := do
  let conts : List (String × ContSpec) ← undefinedName "containers"
  let head : List String :=
    if (conts.lookup container.name).isSome then
      ["NV_GPU=", "nvidia-docker"]
    else
      ["docker"]
  let cmd := head ++ [action]
  if action = "run" then
    let cmd := cmd ++ [container.mode]
    let cmd ←
      if container.volumes.isSome then do
        let v : String ← undefinedName "v"
        pure (cmd ++ ["-v", v])
      else pure cmd
    let cmd := cmd ++ (volumes.getD [])
    let cmd := cmd ++ (links.getD [])
    let cmd ←
      if container.ports.isSome then do
        let p : String ← undefinedName "p"
        pure (cmd ++ ["-p", p])
      else pure cmd
    let cmd := cmd ++ (container.options.getD [])
    let cmd := cmd ++ ["--name", container.name]
    pure (cmd ++ [container.container_name])
  else
    pure (cmd ++ [container.name])

/-- The parsed JSON service configuration consumed by `build_commands`
(the shape the tests write to `containers_test.json`). -/
structure CliConfig where
  broker : ContSpec
  result_db : ContSpec
  model_gen_db : ContSpec
  workers : List ContSpec
  controlers : List ContSpec
  base_volumes : List String

/-- Embedding of `build_commands(config, action)` (`alp/cli.py`,
lines 57–85).  After reading the config keys and formatting
`base_volumes`, line 67 evaluates the identifier `models_gen_db` — the
local variable is called `model_gen_db` — so every call raises
`NameError('models_gen_db')` before any `parse_cont` call or any
container-runtime command is produced.  The later use of the equally
undefined `base_columes` on line 80 is kept in the (unreachable)
remainder. -/
def build_commands (config : CliConfig) (action : String) :
    Except PyErr (List (List String)) := do
  let broker := config.broker
  let results_db := config.result_db
  let model_gen_db := config.model_gen_db
  let workers := config.workers
  let controlers := config.controlers
  let base_volumes := config.base_volumes.map (fun volume => "-v " ++ volume)
  let models_gen_db : ContSpec ← undefinedName "models_gen_db"
  let links := ["--link=" ++ models_gen_db.name, "--link=" ++ broker.name]
  let broker_command ← parse_cont broker action none none
  let r_db_command ← parse_cont results_db action none none
  let m_g_db_command ← parse_cont model_gen_db action none none
  let workers_commands ← workers.mapM
    (fun worker => parse_cont worker action (some base_volumes) (some links))
  let base_columes : List String ← undefinedName "base_columes"
  let controlers_commands ← controlers.mapM
    (fun controler => parse_cont controler action (some base_columes) (some links))
  pure ([broker_command, r_db_command, m_g_db_command] ++
        workers_commands ++ controlers_commands)

/-!
## `alp/backend/keras_backend.py`: the `predict` task
-/

/-- The part of a serialized model architecture dict (`model_arch`) that
`predict` inspects: `model_arch['config'].get('class_name')` and whether
the key `'optimizer'` is present (popped on line 343). -/
structure ModelArch where
  class_name : String
  hasOptimizer : Bool
  deriving DecidableEq, Repr

/-- `model_arch` after `model_dict.pop('optimizer')`. -/
def archNoOpt (a : ModelArch) : ModelArch := { a with hasOptimizer := false }

/-- The `data` argument of `predict`: a dict mapping input names to
arrays, a list of arrays, or a single array (arrays abstracted as `α`). -/
inductive PData (α : Type) where
  | dict : List (String × α) → PData α
  | list : List α → PData α
  | single : α → PData α

/-- The part of a loaded Keras model that `predict` reads:
`model_k.input_names`. -/
structure KModelK where
  input_names : List String

/-- The external Keras calls `predict` makes, as parameters:
`model_from_dict_w_opt`/`layer_from_config` (rebuilding a model from an
architecture dict) and `build_predict_func`/`K.function` (compiling a
prediction function). -/
structure PredictEnv (α β : Type) where
  loadModel : ModelArch → KModelK
  buildPred : KModelK → List (PData α) → β

/-- An entry of `COMPILED_MODELS`: the inner dict with keys `'pred'`
and `'model'` (lines 355–357). -/
structure CacheEntry (α β : Type) where
  pred : List (PData α) → β
  model : KModelK

/-- The module-level `COMPILED_MODELS` dict (line 34), mapping model ids
to compiled entries, in insertion order. -/
abbrev Cache (α β : Type) := List (String × CacheEntry α β)

/-- First-match lookup in `COMPILED_MODELS`. -/
def lookupCache {α β : Type} (c : Cache α β) (k : String) :
    Option (CacheEntry α β) :=
  match c with
  | [] => none
  | (k', e) :: rest => if k' = k then some e else lookupCache rest k

/-- Python `d[n]` on a dict: `KeyError` when the key is absent. -/
def pyDictGet {α : Type} (d : List (String × α)) (k : String) :
    Except PyErr α :=
  match d with
  | [] => .error (.keyError k)
  | (k', v) :: rest => if k' = k then .ok v else pyDictGet rest k

/-- The list comprehension `[data[n] for n in model_k.input_names]` of
the `Graph` and `Model` branches: look each input name up, stopping at
the first `KeyError`. -/
def pyDictGets {α : Type} (names : List String) (d : List (String × α)) :
    Except PyErr (List α) :=
  match names with
  | [] => .ok []
  | n :: rest =>
      match pyDictGet d n with
      | .error e => .error e
      | .ok x =>
          match pyDictGets rest d with
          | .error e => .error e
          | .ok xs => .ok (x :: xs)

/-- The input-marshalling dispatch of `predict` (lines 359–375): per
model class name the data is converted to the list the prediction
function expects; any other class name raises `NotImplementedError`
naming the model type. -/
def marshal {α : Type} (model_name : String) (input_names : List String)
    (data : PData α) : Except PyErr (List (PData α)) :=
  if model_name = "Graph" then
    match data with
    | .dict d => (pyDictGets input_names d).map (List.map .single)
    | .list xs => .ok (xs.map .single)
    | .single x => .ok [.single x]
  else if model_name = "Sequential" then
    match data with
    | .list xs => .ok (xs.map .single)
    | other => .ok [other]
  else if model_name = "Model" then
    match data with
    | .dict d => (pyDictGets input_names d).map (List.map .single)
    | .list xs => .ok (xs.map .single)
    | .single x => .ok [.single x]
  else
    .error (.notImplemented (model_name ++ ": This type of model is not supported"))

/-- Marshal the data for the model's class and apply the prediction
function (`return pred_function(data)`, line 376). -/
def dispatch {α β : Type} (model_name : String) (model_k : KModelK)
    (pred : List (PData α) → β) (data : PData α) : Except PyErr β :=
  (marshal model_name model_k.input_names data).map pred

/-- The serialized-model argument of `predict`: the keys `mod_id`,
`model_arch` and `params_dump` it reads. -/
structure PModel where
  mod_id : String
  model_arch : ModelArch
  params_dump : String

/-- Embedding of the task `predict(model, data)`
(`alp/backend/keras_backend.py`, lines 319–376), explicit in the
`COMPILED_MODELS` state.  If the model id is cached, the stored
prediction function and model are used on the passed architecture's
class name; otherwise the architecture dict's `'optimizer'` entry is
popped (`KeyError` when absent), the model is rebuilt, its weights
loaded (external, abstracted), the prediction function compiled, and
both are inserted into the cache under the id before dispatching. -/
def predict {α β : Type} (env : PredictEnv α β) (cache : Cache α β)
    (model : PModel) (data : PData α) : Except PyErr β × Cache α β :=
  match lookupCache cache model.mod_id with
  | some entry =>
      (dispatch model.model_arch.class_name entry.model entry.pred data, cache)
  | none =>
      if model.model_arch.hasOptimizer then
        let arch := archNoOpt model.model_arch
        let model_k := env.loadModel arch
        let pred_function := env.buildPred model_k
        let cache' := cache ++ [(model.mod_id, ⟨pred_function, model_k⟩)]
        (dispatch arch.class_name model_k pred_function data, cache')
      else
        (.error (.keyError "optimizer"), cache)

/-!
## `alp/backend/keras_backend.py`: the `train` function and the `fit` task
-/

/-- The history object returned by one external `model.fit` call: the
per-metric per-epoch value lists (`h.history`) and the epoch list
(`h.epoch`). -/
structure HistRec where
  history : String → List Int
  epoch : List Int

/-- The behaviour of the Keras model `train` loads from the serialized
dict: its class name, its `metrics_names`, and the history produced by
its `i`-th `model.fit` call. -/
structure KModelSem where
  className : String
  metricsNames : List String
  fitHist : Nat → HistRec

/-- Lines 216–218 of `train`: initialise `results['metrics'][metric]`
and `results['metrics']['val_' + metric]` to empty lists, in order. -/
def metricsInit : List String → Doc
  | [] => []
  | m :: ms => (m, .list []) :: ("val_" ++ m, .list []) :: metricsInit ms

/-- Python `d[k] += xs` on a dict of lists: extend the list stored at
the first occurrence of `k` (append the binding when `k` is fresh). -/
def docAppendList (d : Doc) (k : String) (xs : List Int) : Doc :=
  match d with
  | [] => [(k, .list xs)]
  | (k', v) :: rest =>
      if k' = k then
        match v with
        | .list ys => (k', .list (ys ++ xs)) :: rest
        | other => (k', other) :: rest
      else
        (k', v) :: docAppendList rest k xs

/-- One iteration of `train`'s fitting loop (lines 228–230 / 242–244):
for each monitored metric, `h.history[metric]` is appended both to the
metric's own history and — as the source is written — to the
`'val_' + metric` history as well. -/
def accumBatch (sem : KModelSem) (acc : Doc) (i : Nat) : Doc :=
  let h := sem.fitHist i
  sem.metricsNames.foldl
    (fun d metric =>
      docAppendList (docAppendList d metric (h.history metric))
        ("val_" ++ metric) (h.history metric))
    acc

/-- The loop shared by the `Graph` and the `Sequential`/`Model` branches
of `train` (lines 222–245): iterate over `zip(data, data_val)` (hence
`min` of the two lengths) accumulating histories, then set
`results['metrics']['iter'] = h.epoch[-1] * len(data)` from the last
loop iteration's history.  With zero iterations the name `h` is unbound
(`NameError`); with an empty epoch list `h.epoch[-1]` raises
`IndexError`. -/
def trainLoop (sem : KModelSem) (nData nDataVal : Nat) : Except PyErr Doc :=
  let n := min nData nDataVal
  let acc := (List.range n).foldl (accumBatch sem) (metricsInit sem.metricsNames)
  match n with
  | 0 => .error (.nameError "h")
  | k + 1 =>
      match (sem.fitHist k).epoch.getLast? with
      | none => .error (.indexError "list index out of range")
      | some e => .ok (docSet acc "iter" (.int (e * (nData : Int))))

/-- Embedding of `train(model, data, data_val, ...)`
(`alp/backend/keras_backend.py`, lines 194–249), returning
`results['metrics']`.  The model is dispatched on its class name:
`Graph` and `Sequential`/`Model` run the fitting loop, any other class
raises `NotImplementedError` — the two adjacent source string literals
concatenate to the message `This type of modelis not supported: <name>`. -/
def train (sem : KModelSem) (nData nDataVal : Nat) : Except PyErr Doc :=
  if sem.className = "Graph" then
    trainLoop sem nData nDataVal
  else if sem.className = "Sequential" ∨ sem.className = "Model" then
    trainLoop sem nData nDataVal
  else
    .error (.notImplemented
      ("This type of modelis not supported: " ++ sem.className))

/-- `np.min` on a history list: `ValueError` on an empty array. -/
def pyMin (xs : List Int) : Except PyErr Int :=
  match xs with
  | [] => .error (.valueError
      "zero-size array to reduction operation minimum which has no identity")
  | x :: rest => .ok (rest.foldl min x)

/-- `np.min(results['metrics'][metric])` on the stored value: the
minimum of a list, an integer unchanged, anything else a `TypeError`. -/
def pyMinV (v : Value) : Except PyErr Value :=
  match v with
  | .list xs => (pyMin xs).map .int
  | .int n => .ok (.int n)
  | _ => .error (.typeError "min")

/-- One iteration of `fit`'s persistence loop (lines 302–305):
`res_dict[metric] = results['metrics'][metric]`, overwritten by
`np.min(...)` when the metric is `'loss'` or `'val_loss'`. -/
def resStep (rd : Doc) (kv : String × Value) : Except PyErr Doc :=
  match kv with
  | (k, v) =>
      let rd1 := docSet rd k v
      if k = "loss" ∨ k = "val_loss" then do
        let mn ← pyMinV v
        pure (docSet rd1 k mn)
      else
        pure rd1

/-- The `res_dict` built by `fit` on training success (lines 298–305):
the stopping iteration, the `trained` flag, the finish datetime, then
one entry per key of `results['metrics']` in order. -/
def buildResDict (metrics : Doc) (now2 : Nat) : Except PyErr Doc :=
  match lookupD metrics "iter" with
  | none => .error (.keyError "iter")
  | some iterV =>
      metrics.foldlM resStep
        [("iter_stopped", iterV), ("trained", .int 1),
         ("date_finished_training", .dt now2)]

/-- The model collection: documents indexed by insertion order (the
`_id` Mongo assigns). -/
abbrev DB := List Doc

/-- `db.insert(doc)`: returns the new document's id. -/
def dbInsert (db : DB) (doc : Doc) : Nat × DB := (db.length, db ++ [doc])

/-- `db.update(filter-by-id, set-document)`: apply the `$set` pairs to the
document with the given id. -/
def dbUpdate : DB → Nat → Doc → DB
  | [], _, _ => []
  | d :: ds, 0, s => docSets d s :: ds
  | d :: ds, n + 1, s => d :: dbUpdate ds n s

/-- The arguments and external calls of one `fit` run:
`create_model_hash` keeps its dependence on the batch size,
`create_param_dump` its dependence on the two hashes (the `_path_h5`
prefix is folded in); `sem` is the behaviour of the Keras model `train`
loads; `saveWeightsOk` is whether the external `model.save_weights`
call succeeds. -/
structure FitDeps where
  backend_name : String
  backend_version : String
  model_arch : Value
  createModelHash : Int → String
  dataHash : String
  createParamDump : String → String → String
  sem : KModelSem
  nData : Nat
  nDataVal : Nat
  now1 : Nat
  now2 : Nat
  saveWeightsOk : Bool

/-- The `full_json` document `fit` inserts (lines 280–291), with the
given batch size. -/
def fullJson (d : FitDeps) (bs : Int) : Doc :=
  [("backend_name", .str d.backend_name),
   ("backend_version", .str d.backend_version),
   ("model_arch", d.model_arch),
   ("datetime", .dt d.now1),
   ("mod_id", .str (d.createModelHash bs)),
   ("data_id", .str d.dataHash),
   ("params_dump", .str (d.createParamDump (d.createModelHash bs) d.dataHash)),
   ("batch_size", .int bs),
   ("trained", .int 0),
   ("data_path", .str "sent"),
   ("root", .str "sent"),
   ("data_s", .str "sent")]

/-- The value `fit` returns on success: the train results plus the
`model_id`, `data_id` and `params_dump` entries added on lines 309–311. -/
structure FitRet where
  metrics : Doc
  model_id : String
  data_id : String
  params_dump : String

/-- Embedding of the task `fit(backend_name, backend_version, model,
data, data_val, ...)` (`alp/backend/keras_backend.py`, lines 252–316),
explicit in the database state.  A missing or `None` `batch_size`
keyword defaults to 32 before the model hash is computed; the `full_json`
document is inserted; then `train` runs inside the `try` block, and on
success the metric dictionary is persisted via `$set` and the weights
are saved.  Any exception in the `try` block updates the inserted
document with `error = 1` and re-raises. -/
def fit (d : FitDeps) (kwargsBatch : Option Int) (db : DB) :
    Except PyErr FitRet × DB :=
  let batch_size := kwargsBatch.getD 32
  let hexdi_m := d.createModelHash batch_size
  let hexdi_d := d.dataHash
  let params_dump := d.createParamDump hexdi_m hexdi_d
  let inserted := dbInsert db (fullJson d batch_size)
  let mod_id := inserted.1
  let db1 := inserted.2
  match train d.sem d.nData d.nDataVal with
  | .error e => (.error e, dbUpdate db1 mod_id [("error", .int 1)])
  | .ok results =>
      match buildResDict results d.now2 with
      | .error e => (.error e, dbUpdate db1 mod_id [("error", .int 1)])
      | .ok res_dict =>
          let db2 := dbUpdate db1 mod_id res_dict
          if d.saveWeightsOk then
            (.ok ⟨results, hexdi_m, hexdi_d, params_dump⟩, db2)
          else
            (.error (.ioError "save_weights"),
             dbUpdate db2 mod_id [("error", .int 1)])

/-- A concrete model semantics with an unsupported class name, used by
the witnesses. -/
def semFoo : KModelSem := ⟨"Foo", ["loss"], fun _ => ⟨fun _ => [], []⟩⟩

/-- Concrete fit dependencies around `semFoo`, used by the witnesses. -/
def depsFoo : FitDeps :=
  { backend_name := "keras", backend_version := "1.0",
    model_arch := .str "arch", createModelHash := fun _ => "mh",
    dataHash := "dh", createParamDump := fun a b => a ++ "-" ++ b,
    sem := semFoo, nData := 1, nDataVal := 1, now1 := 0, now2 := 1,
    saveWeightsOk := true }

/-- A concrete serialized model of unsupported class `Bar`, used by the
witnesses. -/
def modelBar : PModel := ⟨"mb", ⟨"Bar", true⟩, "p"⟩

/-- A concrete `Sequential` model monitoring only `loss`, whose single
`model.fit` call reports the history `[3, 1, 2]`; used by the
witnesses. -/
def semLoss : KModelSem :=
  ⟨"Sequential", ["loss"], fun _ => ⟨fun _ => [3, 1, 2], [0, 1, 2]⟩⟩

/-- Concrete fit dependencies around `semLoss`, used by the witnesses. -/
def depsLoss : FitDeps :=
  { backend_name := "keras", backend_version := "1.0",
    model_arch := .str "arch", createModelHash := fun _ => "mh",
    dataHash := "dh", createParamDump := fun a b => a ++ "-" ++ b,
    sem := semLoss, nData := 1, nDataVal := 1, now1 := 0, now2 := 1,
    saveWeightsOk := true }

/-- A concrete prediction environment over integer arrays, used by the
witnesses. -/
def env0 : PredictEnv Int Int :=
  { loadModel := fun _ => ⟨["a"]⟩, buildPred := fun _ _ => 7 }

/-- A concrete cache entry, used by the witnesses. -/
def entry0 : CacheEntry Int Int := ⟨fun _ => 3, ⟨["x"]⟩⟩

/-- A concrete serialized model of class `Sequential`, used by the
witnesses. -/
def model0 : PModel := ⟨"m0", ⟨"Sequential", true⟩, "p"⟩

/-!
## `alp/dbbackend/__init__.py`
-/

/-- Python `d.get(k, default)` on the parsed JSON config dict. -/
def confGetD (content : Doc) (k : String) (dflt : Value) : Value :=
  match lookupD content k with
  | some v => v
  | none => dflt

/-- The six connection parameters held by the database config bootstrap
(`alp/dbbackend/__init__.py`).  Values are untyped, as in Python. -/
structure DbConfig where
  db_engine : Value
  host_adress : Value
  host_port : Value
  db_name : Value
  models_collection : Value
  generators_collection : Value
  deriving DecidableEq, Repr

/-- Embedding of the config-loading block of `alp/dbbackend/__init__.py`
(lines 29–38), run when the config file exists, on the parsed JSON
content.  Each parameter is read with a per-key default; the only check
is `assert _db_engine in set(mongodb)` (line 33, no message), which
raises `AssertionError` when the loaded `db_engine` differs from the
string `'mongodb'`.  Note the collection names are read under the keys
`'_models_collection'` and `'_generators_collection'`, both with default
`'models'`. -/
def loadConfig (content : Doc) : Except PyErr DbConfig :=
  let db_engine := confGetD content "db_engine" (.str "mongodb")
  if db_engine = .str "mongodb" then
    .ok { db_engine := db_engine,
          host_adress := confGetD content "host_adress" (.str "mongo_m"),
          host_port := confGetD content "host_port" (.int 27017),
          db_name := confGetD content "db_name" (.str "modelization"),
          models_collection := confGetD content "_models_collection" (.str "models"),
          generators_collection := confGetD content "_generators_collection" (.str "models") }
  else
    .error (.assertionError "")

/-- Embedding of the config-saving block of `alp/dbbackend/__init__.py`
(lines 41–49): the JSON dict written back to the config file. -/
def writeConfig (c : DbConfig) : Doc :=
  [("db_engine", c.db_engine),
   ("host_adress", c.host_adress),
   ("host_port", c.host_port),
   ("db_name", c.db_name),
   ("models_collection", c.models_collection),
   ("generators_collection", c.generators_collection)]

end Alp

namespace Alp

theorem lookupD_docSet_self (d : Doc) (k : String) (v : Value) :
    lookupD (docSet d k v) k = some v := by
  induction d with
  | nil => simp [docSet, lookupD]
  | cons hd tl ih =>
      by_cases h : hd.1 = k
      · simp [docSet, lookupD, h]
      · simp [docSet, lookupD, h, ih]

theorem lookupD_docSet_ne (d : Doc) (k k' : String) (v : Value) (h : k' ≠ k) :
    lookupD (docSet d k v) k' = lookupD d k' := by
  have hne : ¬k = k' := fun hh => h hh.symm
  induction d with
  | nil => simp [docSet, lookupD, hne]
  | cons hd tl ih =>
      obtain ⟨a, b⟩ := hd
      by_cases hk : a = k
      · subst hk
        simp [docSet, lookupD, hne]
      · by_cases hk' : a = k'
        · simp [docSet, lookupD, hk, hk', h]
        · simp [docSet, lookupD, hk, hk', ih]

theorem lookupD_append (d₁ d₂ : Doc) (k : String) :
    lookupD (d₁ ++ d₂) k =
      match lookupD d₁ k with
      | some v => some v
      | none => lookupD d₂ k := by
  induction d₁ with
  | nil => simp [lookupD]
  | cons hd tl ih =>
      by_cases h : hd.1 = k
      · simp [lookupD, h]
      · simp [lookupD, h, ih]

theorem docSets_append (d : Doc) (a b : Doc) :
    docSets d (a ++ b) = docSets (docSets d a) b := by
  simp [docSets, List.foldl_append]

theorem lookupD_mem {d : Doc} {k : String} {v : Value}
    (h : lookupD d k = some v) : (k, v) ∈ d := by
  induction d with
  | nil => simp [lookupD] at h
  | cons hd tl ih =>
      obtain ⟨a, b⟩ := hd
      by_cases hk : a = k
      · simp [lookupD, hk] at h
        subst hk
        subst h
        exact List.mem_cons_self _ _
      · simp [lookupD, hk] at h
        exact List.mem_cons_of_mem _ (ih h)

/-- C5: for every configuration and action, `build_commands` fails with
`NameError('models_gen_db')` before issuing any container-runtime
command (it never returns a command list), and every call to
`parse_cont` fails with `NameError('containers')`. -/
theorem c5_cli_unresolved_names (config : CliConfig) (action : String)
    (container : ContSpec) (volumes links : Option (List String)) :
    build_commands config action = .error (.nameError "models_gen_db") ∧
    parse_cont container action volumes links = .error (.nameError "containers") :=
  ⟨rfl, rfl⟩

/-- C8: for a non-empty data dict whose first array has length `L`,
`sliced` returns exactly `(offset - L, offset - L + nb_train,
offset - L + nb_train + nb_test)` when `L > nb_train + nb_test + offset`,
and fails the assertion instead of returning otherwise. -/
theorem c8_sliced_spec (name : String) (arr : List Int)
    (rest : List (String × List Int)) (nb_train nb_test offset : Int) :
    ((arr.length : Int) > nb_train + nb_test + offset →
      sliced ((name, arr) :: rest) nb_train nb_test offset =
        .ok (offset - (arr.length : Int),
             offset - (arr.length : Int) + nb_train,
             offset - (arr.length : Int) + nb_train + nb_test)) ∧
    ((arr.length : Int) ≤ nb_train + nb_test + offset →
      sliced ((name, arr) :: rest) nb_train nb_test offset =
        .error (.assertionError
          ("nb or nb + offset too large: len(data):" ++
           toString ((arr.length : Int)) ++
           ", len(selection): " ++ toString (nb_train + nb_test + offset)))) := by
  constructor
  · intro h
    simp [sliced, h]
  · intro h
    simp [sliced, not_lt.mpr h]

/-- Witness for C8 at a concrete input: a five-element array with
`nb_train = 2`, `nb_test = 1`, `offset = 1` succeeds with the predicted
triple, and `nb_train = 3` fails the assertion. -/
theorem c8_sliced_witness :
    sliced [("x", [1, 2, 3, 4, 5])] 2 1 1 = .ok (-4, -2, -1) ∧
    sliced [("x", [1, 2, 3, 4, 5])] 3 1 1 =
      .error (.assertionError
        ("nb or nb + offset too large: len(data):5, len(selection): 5")) := by
  refine ⟨?_, ?_⟩
  · have h := (c8_sliced_spec "x" [1, 2, 3, 4, 5] [] 2 1 1).1 (by decide)
    simpa using h
  · have h := (c8_sliced_spec "x" [1, 2, 3, 4, 5] [] 3 1 1).2 (by decide)
    simpa using h

/-- C10: `switch_backend` returns the same backend for `'sklearn'` as
for `'keras'` (both branches import `get_backend` from the keras backend
module), and for any other name it fails with an unbound local
`get_backend` instead of returning a backend. -/
theorem c10_switch_backend_spec (s : String) :
    switch_backend "sklearn" = switch_backend "keras" ∧
    (s ≠ "keras" → s ≠ "sklearn" →
      switch_backend s = .error (.unboundLocal "get_backend")) := by
  constructor
  · rfl
  · intro h1 h2
    simp [switch_backend, h1, h2]

/-- Witness for C10 at a concrete input: the name `'torch'` is neither
`'keras'` nor `'sklearn'` and yields the unbound-local failure. -/
theorem c10_switch_backend_witness :
    switch_backend "torch" = .error (.unboundLocal "get_backend") :=
  (c10_switch_backend_spec "torch").2 (by decide) (by decide)

/-- C6 counterexample: the claim that loading performs no check that
could raise an error is false — a config file whose `db_engine` is
`'postgres'` makes the bootstrap's assertion raise. -/
theorem c6_counterexample :
    loadConfig [("db_engine", Value.str "postgres")] =
      .error (.assertionError "") := by
  simp [loadConfig, confGetD, lookupD]

/-- C6 amended: loading applies per-key defaults and performs exactly
one check that can raise: it asserts that the loaded `db_engine` equals
`'mongodb'`.  No other loaded value is checked. -/
theorem c6_amended (content : Doc) :
    (confGetD content "db_engine" (.str "mongodb") = .str "mongodb" →
      loadConfig content = .ok
        { db_engine := .str "mongodb",
          host_adress := confGetD content "host_adress" (.str "mongo_m"),
          host_port := confGetD content "host_port" (.int 27017),
          db_name := confGetD content "db_name" (.str "modelization"),
          models_collection := confGetD content "_models_collection" (.str "models"),
          generators_collection := confGetD content "_generators_collection" (.str "models") }) ∧
    (confGetD content "db_engine" (.str "mongodb") ≠ .str "mongodb" →
      loadConfig content = .error (.assertionError "")) := by
  constructor
  · intro h
    simp [loadConfig, h]
  · intro h
    simp [loadConfig, h]

/-- Witness for C6 amended: an empty config dict loads with all
defaults, and a config dict with a non-string `db_engine` fails the
assertion. -/
theorem c6_amended_witness :
    loadConfig [] = .ok
      { db_engine := .str "mongodb", host_adress := .str "mongo_m",
        host_port := .int 27017, db_name := .str "modelization",
        models_collection := .str "models",
        generators_collection := .str "models" } ∧
    loadConfig [("db_engine", Value.int 5)] = .error (.assertionError "") :=
  ⟨(c6_amended []).1 rfl,
   (c6_amended [("db_engine", Value.int 5)]).2 (by decide)⟩

/-- C7 counterexample: the round-trip claim is false at a concrete
config — a bootstrap state whose models collection is `'foo'` and whose
generators collection is `'bar'` is written out, but the next load
recovers `'models'` for both (they are read under the underscore-prefixed
keys `'_models_collection'` and `'_generators_collection'`, which the
writer never produces). -/
theorem c7_counterexample :
    loadConfig (writeConfig
      ⟨.str "mongodb", .str "mongo_m", .int 27017, .str "modelization",
       .str "foo", .str "bar"⟩) =
      .ok ⟨.str "mongodb", .str "mongo_m", .int 27017, .str "modelization",
           .str "models", .str "models"⟩ ∧
    Value.str "models" ≠ Value.str "foo" ∧
    Value.str "models" ≠ Value.str "bar" := by
  refine ⟨?_, by decide, by decide⟩
  simp [loadConfig, writeConfig, confGetD, lookupD]

/-- C7 amended: of the parameters the bootstrap writes, `db_engine`,
`host_adress`, `host_port` and `db_name` are recovered unchanged on the
next load; the models and generators collection names are not — they are
read back under the underscore-prefixed keys, which the writer never
emits, so both come back as the default `'models'` regardless of the
written value. -/
theorem c7_amended (c : DbConfig) (h : c.db_engine = Value.str "mongodb") :
    loadConfig (writeConfig c) = .ok
      { db_engine := c.db_engine, host_adress := c.host_adress,
        host_port := c.host_port, db_name := c.db_name,
        models_collection := Value.str "models",
        generators_collection := Value.str "models" } := by
  simp [loadConfig, writeConfig, confGetD, lookupD, h]

/-- Witness for C7 amended at a concrete config state. -/
theorem c7_amended_witness :
    loadConfig (writeConfig
      ⟨.str "mongodb", .str "h", .int 1, .str "d", .str "mc", .str "gc"⟩) =
      .ok ⟨.str "mongodb", .str "h", .int 1, .str "d",
           .str "models", .str "models"⟩ :=
  c7_amended ⟨.str "mongodb", .str "h", .int 1, .str "d",
              .str "mc", .str "gc"⟩ rfl

theorem lookupCache_append_left {α β : Type} (c rest : Cache α β)
    (k : String) (e : CacheEntry α β) (h : lookupCache c k = some e) :
    lookupCache (c ++ rest) k = some e := by
  induction c with
  | nil => simp [lookupCache] at h
  | cons hd tl ih =>
      obtain ⟨a, b⟩ := hd
      by_cases hk : a = k
      · simp [lookupCache, hk] at h ⊢
        exact h
      · simp [lookupCache, hk] at h ⊢
        exact ih h

/-- C3: `COMPILED_MODELS` only grows.  A `predict` call whose model id
is absent from the mapping (with the `'optimizer'` entry present, as in
every serialized compiled model) appends the compiled prediction
function and the rebuilt model under that id; a call whose id is present
leaves the mapping unchanged and dispatches with the stored function and
model, recompiling and reloading nothing; and no call removes or
replaces an existing entry.  `predict` is a plain function of the cache
state — the module takes no lock around the dict. -/
theorem c3_compiled_models_cache {α β : Type} (env : PredictEnv α β)
    (cache : Cache α β) (model : PModel) (data : PData α) :
    (lookupCache cache model.mod_id = none →
      model.model_arch.hasOptimizer = true →
      (predict env cache model data).2 =
        cache ++ [(model.mod_id,
          ⟨env.buildPred (env.loadModel (archNoOpt model.model_arch)),
           env.loadModel (archNoOpt model.model_arch)⟩)]) ∧
    (∀ entry, lookupCache cache model.mod_id = some entry →
      (predict env cache model data).2 = cache ∧
      (predict env cache model data).1 =
        dispatch model.model_arch.class_name entry.model entry.pred data) ∧
    (∀ k e, lookupCache cache k = some e →
      lookupCache (predict env cache model data).2 k = some e) := by
  refine ⟨?_, ?_, ?_⟩
  · intro hnone hopt
    simp [predict, hnone, hopt, archNoOpt]
  · intro entry hsome
    simp [predict, hsome]
  · intro k e he
    match hm : lookupCache cache model.mod_id with
    | some entry => simpa [predict, hm] using he
    | none =>
        by_cases hopt : model.model_arch.hasOptimizer
        · simp only [predict, hm, hopt, if_pos]
          exact lookupCache_append_left _ _ _ _ he
        · simpa [predict, hm, hopt] using he

/-- Witness for C3 at concrete inputs: an uncached id is appended to
the cache, and a cached id leaves the cache unchanged and uses the
stored entry. -/
theorem c3_compiled_models_cache_witness :
    (predict env0 [] model0 (PData.single 5)).2 =
      [("m0", ⟨env0.buildPred (env0.loadModel (archNoOpt model0.model_arch)),
               env0.loadModel (archNoOpt model0.model_arch)⟩)] ∧
    (predict env0 [("m0", entry0)] model0 (PData.single 5)).2 =
      [("m0", entry0)] ∧
    (predict env0 [("m0", entry0)] model0 (PData.single 5)).1 =
      dispatch model0.model_arch.class_name entry0.model entry0.pred
        (PData.single 5) :=
  ⟨(c3_compiled_models_cache env0 [] model0 (PData.single 5)).1 rfl rfl,
   ((c3_compiled_models_cache env0 [("m0", entry0)] model0
      (PData.single 5)).2.1 entry0 rfl).1,
   ((c3_compiled_models_cache env0 [("m0", entry0)] model0
      (PData.single 5)).2.1 entry0 rfl).2⟩

theorem dbUpdate_append (db : DB) (doc : Doc) (s : Doc) :
    dbUpdate (db ++ [doc]) db.length s = db ++ [docSets doc s] := by
  induction db with
  | nil => simp [dbUpdate]
  | cons d ds ih => simp [dbUpdate, ih]

theorem docSets_singleton (d : Doc) (k : String) (v : Value) :
    docSets d [(k, v)] = docSet d k v := rfl

theorem docSet_of_lookup_none (d : Doc) (k : String) (v : Value)
    (h : lookupD d k = none) : docSet d k v = d ++ [(k, v)] := by
  induction d with
  | nil => simp [docSet]
  | cons hd tl ih =>
      obtain ⟨a, b⟩ := hd
      by_cases hk : a = k
      · simp [lookupD, hk] at h
      · simp [lookupD, hk] at h
        simp [docSet, hk, ih h]

theorem lookupD_fullJson_error (d : FitDeps) (bs : Int) :
    lookupD (fullJson d bs) "error" = none := by
  simp [fullJson, lookupD]

theorem lookupD_fullJson_trained (d : FitDeps) (bs : Int) :
    lookupD (fullJson d bs) "trained" = some (Value.int 0) := by
  simp [fullJson, lookupD]

theorem pyDictGet_not_notImpl {α : Type} (d : List (String × α))
    (k s : String) : pyDictGet d k ≠ .error (.notImplemented s) := by
  induction d with
  | nil => simp [pyDictGet]
  | cons hd tl ih =>
      obtain ⟨a, b⟩ := hd
      by_cases hk : a = k <;> simp [pyDictGet, hk, ih]

theorem pyDictGets_not_notImpl {α : Type} (names : List String)
    (d : List (String × α)) (s : String) :
    pyDictGets names d ≠ .error (.notImplemented s) := by
  induction names with
  | nil => simp [pyDictGets]
  | cons n rest ih =>
      cases hx : pyDictGet d n with
      | error e =>
          intro hh
          simp only [pyDictGets, hx, Except.error.injEq] at hh
          rw [hh] at hx
          exact pyDictGet_not_notImpl d n s hx
      | ok x =>
          cases hr : pyDictGets rest d with
          | error e2 =>
              intro hh
              simp only [pyDictGets, hx, hr, Except.error.injEq] at hh
              rw [hh] at hr
              exact ih hr
          | ok xs => simp [pyDictGets, hx, hr]

theorem marshal_not_notImpl {α : Type} (name : String)
    (hn : name = "Graph" ∨ name = "Sequential" ∨ name = "Model")
    (ins : List String) (data : PData α) (s : String) :
    marshal name ins data ≠ .error (.notImplemented s) := by
  rcases hn with h | h | h <;> subst h
  · cases data with
    | dict d =>
        cases hg : pyDictGets ins d with
        | error e =>
            intro hh
            simp [marshal, hg, Except.map, Except.error.injEq] at hh
            rw [hh] at hg
            exact pyDictGets_not_notImpl ins d s hg
        | ok xs => simp [marshal, hg, Except.map]
    | list xs => simp [marshal]
    | single x => simp [marshal]
  · cases data <;> simp [marshal]
  · cases data with
    | dict d =>
        cases hg : pyDictGets ins d with
        | error e =>
            intro hh
            simp [marshal, hg, Except.map, Except.error.injEq] at hh
            rw [hh] at hg
            exact pyDictGets_not_notImpl ins d s hg
        | ok xs => simp [marshal, hg, Except.map]
    | list xs => simp [marshal]
    | single x => simp [marshal]

theorem dispatch_not_notImpl {α β : Type} (name : String)
    (hn : name = "Graph" ∨ name = "Sequential" ∨ name = "Model")
    (mk : KModelK) (pred : List (PData α) → β) (data : PData α)
    (s : String) : dispatch name mk pred data ≠ .error (.notImplemented s) := by
  intro hc
  unfold dispatch at hc
  cases hmar : marshal name mk.input_names data with
  | error e =>
      rw [hmar] at hc
      simp [Except.map] at hc
      exact marshal_not_notImpl name hn mk.input_names data s (by rw [hmar, hc])
  | ok xs =>
      rw [hmar] at hc
      simp [Except.map] at hc

theorem train_supported (sem : KModelSem)
    (h : sem.className = "Graph" ∨ sem.className = "Sequential" ∨
      sem.className = "Model") (nD nDV : Nat) :
    train sem nD nDV = trainLoop sem nD nDV := by
  rcases h with h1 | h1 | h1 <;> simp [train, h1]

theorem trainLoop_not_notImpl (sem : KModelSem) (nD nDV : Nat) (s : String) :
    trainLoop sem nD nDV ≠ .error (.notImplemented s) := by
  simp only [trainLoop]
  cases hmn : min nD nDV with
  | zero => simp [hmn]
  | succ k =>
      cases hl : (sem.fitHist k).epoch.getLast? with
      | none => simp [hmn, hl]
      | some e0 => simp [hmn, hl]

/-- C2: a model whose architecture class name is none of `Graph`,
`Sequential`, `Model` makes `train` raise `NotImplementedError` naming
the model type, and makes `predict` do likewise (provided the serialized
architecture carries its `optimizer` entry, as every serialized compiled
model does, or the id is already cached — otherwise the `optimizer` pop
fails first); for the three supported names neither function can return
the `NotImplementedError` branch's error. -/
theorem c2_unsupported_model_type {α β : Type} (sem : KModelSem)
    (nD nDV : Nat) (env : PredictEnv α β) (cache : Cache α β)
    (model : PModel) (data : PData α) :
    (sem.className ∉ (["Graph", "Sequential", "Model"] : List String) →
      train sem nD nDV = .error (.notImplemented
        ("This type of modelis not supported: " ++ sem.className))) ∧
    (sem.className ∈ (["Graph", "Sequential", "Model"] : List String) →
      ∀ s, train sem nD nDV ≠ .error (.notImplemented s)) ∧
    (model.model_arch.class_name ∉ (["Graph", "Sequential", "Model"] : List String) →
      (lookupCache cache model.mod_id ≠ none ∨
        model.model_arch.hasOptimizer = true) →
      (predict env cache model data).1 = .error (.notImplemented
        (model.model_arch.class_name ++ ": This type of model is not supported"))) ∧
    (model.model_arch.class_name ∈ (["Graph", "Sequential", "Model"] : List String) →
      ∀ s, (predict env cache model data).1 ≠ .error (.notImplemented s)) := by
  refine ⟨?_, ?_, ?_, ?_⟩
  · intro h
    simp only [List.mem_cons, List.mem_singleton, List.not_mem_nil] at h
    push_neg at h
    simp [train, h.1, h.2.1, h.2.2]
  · intro h s
    simp only [List.mem_cons, List.mem_singleton, List.not_mem_nil, or_false] at h
    rw [train_supported sem h nD nDV]
    exact trainLoop_not_notImpl sem nD nDV s
  · intro hnot hpre
    simp only [List.mem_cons, List.mem_singleton, List.not_mem_nil] at hnot
    push_neg at hnot
    cases hm : lookupCache cache model.mod_id with
    | some entry =>
        simp [predict, hm, dispatch, marshal, Except.map,
              hnot.1, hnot.2.1, hnot.2.2]
    | none =>
        rcases hpre with hl | hopt
        · exact absurd hm hl
        · simp [predict, hm, hopt, dispatch, marshal, archNoOpt, Except.map,
                hnot.1, hnot.2.1, hnot.2.2]
  · intro hmem s
    simp only [List.mem_cons, List.mem_singleton, List.not_mem_nil, or_false] at hmem
    cases hm : lookupCache cache model.mod_id with
    | some entry =>
        simp only [predict, hm]
        exact dispatch_not_notImpl model.model_arch.class_name hmem
          entry.model entry.pred data s
    | none =>
        by_cases hopt : model.model_arch.hasOptimizer
        · simp only [predict, hm, hopt, if_pos]
          exact dispatch_not_notImpl model.model_arch.class_name hmem
            (env.loadModel (archNoOpt model.model_arch))
            (env.buildPred (env.loadModel (archNoOpt model.model_arch))) data s
        · simp [predict, hm, hopt]

/-- Witness for C2 at concrete inputs: class `Foo` makes `train` raise
the named `NotImplementedError`, and class `Bar` (uncached, with the
optimizer entry present) makes `predict` raise its named
`NotImplementedError`. -/
theorem c2_unsupported_model_type_witness :
    train semFoo 1 1 =
      .error (.notImplemented "This type of modelis not supported: Foo") ∧
    (predict env0 [] modelBar (PData.single 5)).1 =
      .error (.notImplemented "Bar: This type of model is not supported") :=
  ⟨(c2_unsupported_model_type semFoo 1 1 env0 [] modelBar
      (PData.single 5)).1 (by decide),
   (c2_unsupported_model_type semFoo 1 1 env0 [] modelBar
      (PData.single 5)).2.2.1 (by decide) (Or.inr rfl)⟩

/-- C1: when the `train` call inside `fit` raises any exception, `fit`
re-raises the same exception, and the document it inserted is updated by
setting only the field `error` to 1: `trained` stays 0, and every other
field keeps the value it was inserted with. -/
theorem c1_fit_error_flag (d : FitDeps) (kb : Option Int) (db : DB) (e : PyErr)
    (h : train d.sem d.nData d.nDataVal = .error e) :
    fit d kb db =
      (.error e, db ++ [fullJson d (kb.getD 32) ++ [("error", Value.int 1)]]) ∧
    lookupD (fullJson d (kb.getD 32) ++ [("error", Value.int 1)]) "trained" =
      some (Value.int 0) ∧
    ∀ k, k ≠ "error" →
      lookupD (fullJson d (kb.getD 32) ++ [("error", Value.int 1)]) k =
        lookupD (fullJson d (kb.getD 32)) k := by
  refine ⟨?_, ?_, ?_⟩
  · simp only [fit, dbInsert, h]
    rw [dbUpdate_append, docSets_singleton,
        docSet_of_lookup_none _ _ _ (lookupD_fullJson_error d _)]
  · rw [lookupD_append, lookupD_fullJson_trained]
  · intro k hk
    have hke : ¬"error" = k := fun hh => hk hh.symm
    rw [lookupD_append]
    match hv : lookupD (fullJson d (kb.getD 32)) k with
    | some v => simp
    | none => simp [lookupD, hke]

/-- Witness for C1 at a concrete input: a model of unsupported class
`Foo` makes `train` raise, `fit` re-raises it, and the stored document
carries `error = 1` with `trained` still 0. -/
theorem c1_fit_error_flag_witness :
    fit depsFoo none [] =
      (.error (.notImplemented "This type of modelis not supported: Foo"),
       [fullJson depsFoo 32 ++ [("error", Value.int 1)]]) ∧
    lookupD (fullJson depsFoo 32 ++ [("error", Value.int 1)]) "trained" =
      some (Value.int 0) :=
  ⟨(c1_fit_error_flag depsFoo none []
      (.notImplemented "This type of modelis not supported: Foo") rfl).1,
   (c1_fit_error_flag depsFoo none []
      (.notImplemented "This type of modelis not supported: Foo") rfl).2.1⟩

/-- C9: `fit` without a `batch_size` keyword (or with `batch_size`
`None`) behaves exactly like `fit` with `batch_size` 32: the inserted
document records `batch_size` 32 and a model hash computed at batch
size 32; an explicit batch size is used and recorded unchanged.  In
every outcome the database gains exactly the `full_json` document for
the effective batch size, possibly updated by `$set` pairs. -/
theorem c9_fit_batch_size_default (d : FitDeps) (db : DB) :
    fit d none db = fit d (some 32) db ∧
    (∀ b : Int,
      lookupD (fullJson d b) "batch_size" = some (Value.int b) ∧
      lookupD (fullJson d b) "mod_id" =
        some (Value.str (d.createModelHash b))) ∧
    (∀ kb : Option Int, ∃ s : Doc,
      (fit d kb db).2 = db ++ [docSets (fullJson d (kb.getD 32)) s]) := by
  refine ⟨rfl, ?_, ?_⟩
  · intro b
    constructor <;> simp [fullJson, lookupD]
  · intro kb
    match htr : train d.sem d.nData d.nDataVal with
    | .error e =>
        exact ⟨[("error", .int 1)],
          by simp [fit, dbInsert, htr, dbUpdate_append]⟩
    | .ok results =>
        match hrd : buildResDict results d.now2 with
        | .error e2 =>
            exact ⟨[("error", .int 1)],
              by simp [fit, dbInsert, htr, hrd, dbUpdate_append]⟩
        | .ok rd =>
            by_cases hs : d.saveWeightsOk
            · exact ⟨rd, by simp [fit, dbInsert, htr, hrd, hs, dbUpdate_append]⟩
            · refine ⟨rd ++ [("error", .int 1)], ?_⟩
              simp [fit, dbInsert, htr, hrd, hs, dbUpdate_append, docSets_append]

theorem exceptBind_ok {ε α β : Type} (a : α) (f : α → Except ε β) :
    (Except.ok a >>= f) = f a := rfl

theorem exceptBind_error {ε α β : Type} (e : ε) (f : α → Except ε β) :
    ((Except.error e : Except ε α) >>= f) = .error e := rfl

theorem resStep_lookup_ne (rd rd1 : Doc) (k : String) (v : Value)
    (m : String) (h : resStep rd (k, v) = .ok rd1) (hm : m ≠ k) :
    lookupD rd1 m = lookupD rd m := by
  simp only [resStep] at h
  by_cases hc : k = "loss" ∨ k = "val_loss"
  · rw [if_pos hc] at h
    cases hmn : pyMinV v with
    | error e =>
        rw [hmn, exceptBind_error] at h
        exact absurd h (by simp)
    | ok w =>
        rw [hmn, exceptBind_ok] at h
        simp only [pure, Except.pure, Except.ok.injEq] at h
        subst h
        rw [lookupD_docSet_ne _ _ _ _ hm, lookupD_docSet_ne _ _ _ _ hm]
  · rw [if_neg hc] at h
    simp only [pure, Except.pure, Except.ok.injEq] at h
    subst h
    rw [lookupD_docSet_ne _ _ _ _ hm]

theorem resStep_lookup_self (rd rd1 : Doc) (k : String) (v : Value)
    (h : resStep rd (k, v) = .ok rd1) :
    (¬(k = "loss" ∨ k = "val_loss") → lookupD rd1 k = some v) ∧
    ((k = "loss" ∨ k = "val_loss") →
      ∃ w, pyMinV v = .ok w ∧ lookupD rd1 k = some w) := by
  simp only [resStep] at h
  constructor
  · intro hc
    rw [if_neg hc] at h
    simp only [pure, Except.pure, Except.ok.injEq] at h
    subst h
    exact lookupD_docSet_self _ _ _
  · intro hc
    rw [if_pos hc] at h
    cases hmn : pyMinV v with
    | error e =>
        rw [hmn, exceptBind_error] at h
        exact absurd h (by simp)
    | ok w =>
        rw [hmn, exceptBind_ok] at h
        simp only [pure, Except.pure, Except.ok.injEq] at h
        subst h
        exact ⟨w, rfl, lookupD_docSet_self _ _ _⟩

theorem foldlM_resStep_notmem (kvs : Doc) (rd0 rdf : Doc) (m : String)
    (h : kvs.foldlM resStep rd0 = .ok rdf) (hm : m ∉ kvs.map Prod.fst) :
    lookupD rdf m = lookupD rd0 m := by
  induction kvs generalizing rd0 with
  | nil =>
      rw [List.foldlM_nil] at h
      simp only [pure, Except.pure, Except.ok.injEq] at h
      subst h
      rfl
  | cons kv rest ih =>
      obtain ⟨k, v⟩ := kv
      rw [List.foldlM_cons] at h
      cases hstep : resStep rd0 (k, v) with
      | error e =>
          rw [hstep, exceptBind_error] at h
          exact absurd h (by simp)
      | ok rd1 =>
          rw [hstep, exceptBind_ok] at h
          simp only [List.map_cons, List.mem_cons] at hm
          push_neg at hm
          rw [ih rd1 h hm.2]
          exact resStep_lookup_ne rd0 rd1 k v m hstep hm.1

theorem foldlM_resStep_mem (kvs : Doc) (rd0 rdf : Doc)
    (h : kvs.foldlM resStep rd0 = .ok rdf)
    (hnd : (kvs.map Prod.fst).Nodup) (k : String) (v : Value)
    (hkv : (k, v) ∈ kvs) :
    (¬(k = "loss" ∨ k = "val_loss") → lookupD rdf k = some v) ∧
    ((k = "loss" ∨ k = "val_loss") →
      ∃ w, pyMinV v = .ok w ∧ lookupD rdf k = some w) := by
  induction kvs generalizing rd0 with
  | nil => simp at hkv
  | cons kv rest ih =>
      obtain ⟨a, b⟩ := kv
      rw [List.foldlM_cons] at h
      cases hstep : resStep rd0 (a, b) with
      | error e =>
          rw [hstep, exceptBind_error] at h
          exact absurd h (by simp)
      | ok rd1 =>
          rw [hstep, exceptBind_ok] at h
          simp only [List.map_cons, List.nodup_cons] at hnd
          rcases List.mem_cons.mp hkv with heq | hmem
          · injection heq with h1 h2
            subst h1
            subst h2
            have hpres := foldlM_resStep_notmem rest rd1 rdf k h hnd.1
            have hself := resStep_lookup_self rd0 rd1 k v hstep
            refine ⟨fun hc => ?_, fun hc => ?_⟩
            · rw [hpres]
              exact hself.1 hc
            · obtain ⟨w, hw1, hw2⟩ := hself.2 hc
              exact ⟨w, hw1, by rw [hpres]; exact hw2⟩
          · exact ih rd1 h hnd.2 hmem

theorem buildResDict_ok (metrics : Doc) (now2 : Nat) (rd : Doc)
    (h : buildResDict metrics now2 = .ok rd) :
    ∃ iterV, lookupD metrics "iter" = some iterV ∧
      metrics.foldlM resStep
        [("iter_stopped", iterV), ("trained", .int 1),
         ("date_finished_training", .dt now2)] = .ok rd := by
  unfold buildResDict at h
  cases hit : lookupD metrics "iter" with
  | none =>
      rw [hit] at h
      simp at h
  | some v =>
      rw [hit] at h
      exact ⟨v, rfl, h⟩

/-- C4 counterexample: the claim that on success the full per-epoch
history of every monitored metric is persisted fails at a concrete
run — `train` accumulates the history `[3, 1, 2]` for `loss`, but the
document stores `np.min` of it, the integer 1. -/
theorem c4_counterexample :
    train semLoss 1 1 =
      .ok [("loss", Value.list [3, 1, 2]), ("val_loss", Value.list [3, 1, 2]),
           ("iter", Value.int 2)] ∧
    (fit depsLoss none []).2.map (fun doc => lookupD doc "loss") =
      [some (Value.int 1)] ∧
    Value.int 1 ≠ Value.list [3, 1, 2] :=
  ⟨rfl, rfl, by decide⟩

/-- C4 amended: every run of `fit` inserts a document holding the model
hash (`mod_id`), the data hash (`data_id`) and the weight file path
(`params_dump`), and on success updates that document, for every key of
`results['metrics']`, with the value accumulated by `train` — except
that for `loss` and `val_loss` the minimum over the accumulated history
is persisted instead of the full list. -/
theorem c4_fit_persists_amended (d : FitDeps) (kb : Option Int) (db : DB)
    (metrics rd : Doc)
    (htrain : train d.sem d.nData d.nDataVal = .ok metrics)
    (hrd : buildResDict metrics d.now2 = .ok rd)
    (hnd : (metrics.map Prod.fst).Nodup) :
    lookupD (fullJson d (kb.getD 32)) "mod_id" =
      some (Value.str (d.createModelHash (kb.getD 32))) ∧
    lookupD (fullJson d (kb.getD 32)) "data_id" =
      some (Value.str d.dataHash) ∧
    lookupD (fullJson d (kb.getD 32)) "params_dump" =
      some (Value.str
        (d.createParamDump (d.createModelHash (kb.getD 32)) d.dataHash)) ∧
    (d.saveWeightsOk = true →
      fit d kb db =
        (.ok ⟨metrics, d.createModelHash (kb.getD 32), d.dataHash,
              d.createParamDump (d.createModelHash (kb.getD 32)) d.dataHash⟩,
         db ++ [docSets (fullJson d (kb.getD 32)) rd])) ∧
    (∀ m v, lookupD metrics m = some v → ¬(m = "loss" ∨ m = "val_loss") →
      lookupD rd m = some v) ∧
    (∀ m xs, lookupD metrics m = some (Value.list xs) →
      (m = "loss" ∨ m = "val_loss") →
      ∃ mn : Int, pyMin xs = .ok mn ∧ lookupD rd m = some (Value.int mn)) := by
  obtain ⟨iterV, hit, hfold⟩ := buildResDict_ok metrics d.now2 rd hrd
  refine ⟨by simp [fullJson, lookupD], by simp [fullJson, lookupD],
          by simp [fullJson, lookupD], ?_, ?_, ?_⟩
  · intro hsave
    simp only [fit, dbInsert, htrain, hrd, hsave, if_true]
    rw [dbUpdate_append]
  · intro m v hm hc
    exact (foldlM_resStep_mem metrics _ rd hfold hnd m v (lookupD_mem hm)).1 hc
  · intro m xs hm hc
    obtain ⟨w, hw1, hw2⟩ :=
      (foldlM_resStep_mem metrics _ rd hfold hnd m (Value.list xs)
        (lookupD_mem hm)).2 hc
    cases hpm : pyMin xs with
    | error e => simp [pyMinV, hpm, Except.map] at hw1
    | ok mn =>
        refine ⟨mn, rfl, ?_⟩
        simp only [pyMinV, hpm, Except.map, Except.ok.injEq] at hw1
        rw [← hw1] at hw2
        exact hw2

/-- Witness for C4 amended at a concrete successful run: the inserted
document carries the model hash, the run succeeds with the predicted
database state, and the value persisted under `loss` is the minimum of
the accumulated history `[3, 1, 2]`. -/
theorem c4_fit_persists_amended_witness :
    lookupD (fullJson depsLoss 32) "mod_id" = some (Value.str "mh") ∧
    fit depsLoss none [] =
      (.ok ⟨[("loss", Value.list [3, 1, 2]), ("val_loss", Value.list [3, 1, 2]),
             ("iter", Value.int 2)], "mh", "dh", "mh-dh"⟩,
       [docSets (fullJson depsLoss 32)
          [("iter_stopped", Value.int 2), ("trained", Value.int 1),
           ("date_finished_training", Value.dt 1), ("loss", Value.int 1),
           ("val_loss", Value.int 1), ("iter", Value.int 2)]]) ∧
    (∃ mn : Int, pyMin [3, 1, 2] = .ok mn ∧
      lookupD [("iter_stopped", Value.int 2), ("trained", Value.int 1),
               ("date_finished_training", Value.dt 1), ("loss", Value.int 1),
               ("val_loss", Value.int 1), ("iter", Value.int 2)] "loss" =
        some (Value.int mn)) :=
  ⟨(c4_fit_persists_amended depsLoss none []
      [("loss", Value.list [3, 1, 2]), ("val_loss", Value.list [3, 1, 2]),
       ("iter", Value.int 2)]
      [("iter_stopped", Value.int 2), ("trained", Value.int 1),
       ("date_finished_training", Value.dt 1), ("loss", Value.int 1),
       ("val_loss", Value.int 1), ("iter", Value.int 2)]
      rfl rfl (by decide)).1,
   (c4_fit_persists_amended depsLoss none []
      [("loss", Value.list [3, 1, 2]), ("val_loss", Value.list [3, 1, 2]),
       ("iter", Value.int 2)]
      [("iter_stopped", Value.int 2), ("trained", Value.int 1),
       ("date_finished_training", Value.dt 1), ("loss", Value.int 1),
       ("val_loss", Value.int 1), ("iter", Value.int 2)]
      rfl rfl (by decide)).2.2.2.1 rfl,
   (c4_fit_persists_amended depsLoss none []
      [("loss", Value.list [3, 1, 2]), ("val_loss", Value.list [3, 1, 2]),
       ("iter", Value.int 2)]
      [("iter_stopped", Value.int 2), ("trained", Value.int 1),
       ("date_finished_training", Value.dt 1), ("loss", Value.int 1),
       ("val_loss", Value.int 1), ("iter", Value.int 2)]
      rfl rfl (by decide)).2.2.2.2.2 "loss" [3, 1, 2] rfl (Or.inl rfl)⟩

end Alp
